import Mathlib

/-!
Verification of the newsum ingestion-and-summarization pipeline.

This file shallowly embeds the core helpers of the repository
(`app/helpers/summary_utils.py`, `app/helpers/gnews_helper.py`,
`app/helpers/summary_helper.py`, `app/config.py`) as executable Lean
definitions and proves or refutes the frozen claims about them.

Conventions used throughout:
* Python `None` and missing values are `Option.none`; Python truthiness of a
  string-or-None value is `truthyO` (the empty string is falsy, like in Python).
* External collaborators (HTTP client, BeautifulSoup extraction, the Gemini
  call, the database session) are oracle parameters; the control flow around
  them is translated line by line from the source.
* Timestamps are `Nat` (seconds); `now` is an oracle field.
-/

namespace Newsum

/-- Log severity levels used by the helpers' `logger` calls. -/
inductive LogLevel
  | debug
  | info
  | warning
  | error
  deriving DecidableEq, Repr

/-- One emitted log event: severity plus a short tag identifying the call site. -/
structure LogEvent where
  level : LogLevel
  tag : String
  deriving DecidableEq, Repr

/-- Python truthiness of an optional string: `None` and `""` are falsy,
any non-empty string is truthy. -/
def truthyO : Option String → Bool
  | some s => !(s == "")
  | none => false

/-! ## Content Fetcher (`summary_utils.fetch_page_content`, lines 21-50) -/

/-- Outcome of the single HTTP GET issued by `fetch_page_content`, as seen by
the surrounding `try` block: either a final response (after redirects) with
status code, content-type header and body text, or one of the exception
classes the handlers distinguish.  `timedOut` is httpx's timeout, a subclass
of `RequestError`; `otherFailure` is any other exception. -/
inductive HttpOutcome
  | response (status : Nat) (contentType : String) (body : String)
  | transportError
  | timedOut
  | otherFailure
  deriving DecidableEq, Repr

/-- Python substring containment `pat in l` over character lists. -/
def containsSeq (pat : List Char) : List Char → Bool
  | [] => pat.isEmpty
  | c :: tl => pat.isPrefixOf (c :: tl) || containsSeq pat tl

/-- Python `s.lower()` (ASCII is all that content-type headers use). -/
def strLower (s : String) : String := String.mk (s.toList.map Char.toLower)

/-- The test `if html in content_type` from `fetch_page_content` line 36,
where `content_type` has already been lowercased (line 35). -/
def contentTypeIsHtml (ct : String) : Bool :=
  containsSeq ("html".toList) ((strLower ct).toList)

/-- Embedding of `fetch_page_content` (summary_utils.py lines 21-50).
`response.raise_for_status()` raises `HTTPStatusError` for every non-2xx final
status; the `except` clauses map `HTTPStatusError`, `RequestError` (timeouts
included) and any other exception to `None`, so the function is total and
returns `Option String` rather than raising. -/
def fetch_page_content (r : HttpOutcome) : Option String :=
  match r with
  | .response status ct body =>
      if 200 ≤ status ∧ status < 300 then
        if contentTypeIsHtml ct then some body else none
      else none
  | .transportError => none
  | .timedOut => none
  | .otherFailure => none

/-! ## Per-run collaborator oracle for the two analysis pipelines -/

/-- Behaviour of the collaborators during one pipeline run:
`fetchPage` is `fetch_page_content` (absent on failure, per its contract total),
`extract` is `extract_text_from_html` (total, empty string on failure),
`summarize` is `generate_summary_from_text` applied to text and optional title
(absent on rejection or API failure; by its own code it never raises), and
`now` is the value of `datetime.now(timezone.utc)` when read. -/
structure SumOracle where
  fetchPage : String → Option String
  extract : String → String
  summarize : String → Option String → Option String
  now : Nat

/-! ## GNews pipeline (`gnews_helper.analyze_gnews_data`, lines 72-168) -/

/-- One article dictionary from the GNews listing response, with the fields
`analyze_gnews_data` reads.  `source_name` and `source_url` stand for the
flattened nested `source` dict. -/
structure GCand where
  url : Option String
  title : Option String
  description : Option String
  image : Option String
  publishedAt : Option String
  sourceName : Option String
  sourceUrl : Option String
  deriving DecidableEq, Repr

/-- The flattened dictionary `analyze_gnews_data` appends to its output list
(gnews_helper.py lines 153-163). -/
structure GProcessed where
  title : Option String
  description : Option String
  url : Option String
  imageUrl : Option String
  publishedAt : Option String
  sourceName : Option String
  sourceUrl : Option String
  summary : Option String
  summaryGeneratedAt : Option Nat
  deriving DecidableEq, Repr

/-- Value of `article_text_to_summarize` in `analyze_gnews_data`
(lines 120-132): starts as `None`, becomes the extraction result only when
`html_content` is truthy; there is no fallback to the description here. -/
def gnewsText (o : SumOracle) (url : String) : Option String :=
  match o.fetchPage url with
  | some h => if h == "" then none else some (o.extract h)
  | none => none

/-- The text actually handed to `generate_summary_from_text` by
`analyze_gnews_data` line 137, gated by `if article_text_to_summarize`
(line 135): absent when the Summarizer is not invoked at all. -/
def gnewsSummarizerInput (o : SumOracle) (url : String) : Option String :=
  match gnewsText o url with
  | some t => if t == "" then none else some t
  | none => none

/-- Result of the Summarizer for one GNews article: the value of
`generated_summary` when the call happens, absent when the Summarizer is
never invoked. -/
def gnewsSummaryResult (o : SumOracle) (url : String) (title : Option String) :
    Option String :=
  match gnewsSummarizerInput o url with
  | some t => o.summarize t title
  | none => none

/-- Per-article body of the `for article in articles` loop of
`analyze_gnews_data` (lines 94-165).  Returns `none` when the article is
skipped by the `if not url or not title` guard (line 98), otherwise the
flattened output dictionary.  `summary_to_save` starts as the description
(line 118) and is replaced by the generated summary only when that summary is
truthy (lines 138-141), which is also the only point where
`summary_generated_ts` is set. -/
def processGnewsCandidate (o : SumOracle) (c : GCand) : Option GProcessed :=
  if truthyO c.url && truthyO c.title then
    some
      { title := c.title
        description := c.description
        url := c.url
        imageUrl := c.image
        publishedAt := c.publishedAt
        sourceName := c.sourceName
        sourceUrl := c.sourceUrl
        summary :=
          if truthyO (gnewsSummaryResult o (c.url.getD "") c.title) then
            gnewsSummaryResult o (c.url.getD "") c.title
          else c.description
        summaryGeneratedAt :=
          if truthyO (gnewsSummaryResult o (c.url.getD "") c.title) then
            some o.now
          else none }
  else none

/-- The whole article loop of `analyze_gnews_data`: skipped candidates produce
no output record, everything else is appended in order. -/
def analyzeGnewsArticles (o : SumOracle) (arts : List GCand) : List GProcessed :=
  arts.filterMap (processGnewsCandidate o)

/-! ## NewsData pipeline (`summary_helper.analyze_news_data`, lines 106-192) -/

/-- One article dictionary from the NewsData listing response, with the fields
`analyze_news_data` reads. -/
structure NCand where
  articleId : Option String
  title : Option String
  link : Option String
  description : Option String
  keywords : Option String
  sourceName : Option String
  pubDate : Option String
  deriving DecidableEq, Repr

/-- The dictionary `analyze_news_data` appends to its output list
(summary_helper.py lines 178-188). -/
structure NProcessed where
  articleId : Option String
  title : Option String
  referenceUrl : Option String
  description : Option String
  keywords : Option String
  summary : Option String
  sourceName : Option String
  pubDate : Option String
  summaryGeneratedAt : Option Nat
  deriving DecidableEq, Repr

/-- Value of `article_text_to_summarize` in `analyze_news_data`
(lines 153-165): on truthy fetched content it is the extraction result,
falling back to the description when extraction is empty and the description
is truthy (staying the empty extraction otherwise); on fetch failure it falls
back to the description when truthy and stays `None` otherwise. -/
def newsText (o : SumOracle) (link : String) (description : Option String) :
    Option String :=
  match o.fetchPage link with
  | some h =>
      if h == "" then
        match description with
        | some d => if d == "" then none else some d
        | none => none
      else
        if o.extract h == "" then
          match description with
          | some d => if d == "" then some (o.extract h) else some d
          | none => some (o.extract h)
        else some (o.extract h)
  | none =>
      match description with
      | some d => if d == "" then none else some d
      | none => none

/-- The text actually handed to `generate_summary_from_text` by
`analyze_news_data` line 168, gated by `if article_text_to_summarize`
(line 167): absent when the Summarizer is not invoked at all. -/
def newsSummarizerInput (o : SumOracle) (link : String)
    (description : Option String) : Option String :=
  match newsText o link description with
  | some t => if t == "" then none else some t
  | none => none

/-- The value of `generated_summary` after lines 150-173 of
`analyze_news_data`: `None` when the Summarizer is never invoked, otherwise
whatever the Summarizer returned. -/
def newsSummaryResult (o : SumOracle) (link : String)
    (description : Option String) (title : Option String) : Option String :=
  match newsSummarizerInput o link description with
  | some t => o.summarize t title
  | none => none

/-- Per-article body of the `for article in articles_to_process` loop of
`analyze_news_data` (lines 132-189).  Returns `none` for candidates skipped
by the `if not article_id` (line 134) or `if not link` (line 146) guards.
Note that the output `summary` field is `generated_summary` itself
(line 184): on Summarizer failure it stays absent, the description is not
copied into it. -/
def processNewsCandidate (o : SumOracle) (c : NCand) : Option NProcessed :=
  if truthyO c.articleId then
    if truthyO c.link then
      some
        { articleId := c.articleId
          title := c.title
          referenceUrl := c.link
          description := c.description
          keywords := c.keywords
          summary := newsSummaryResult o (c.link.getD "") c.description c.title
          sourceName := c.sourceName
          pubDate := c.pubDate
          summaryGeneratedAt :=
            if truthyO (newsSummaryResult o (c.link.getD "") c.description c.title) then
              some o.now
            else none }
    else none
  else none

/-- The whole article loop of `analyze_news_data`. -/
def analyzeNewsArticles (o : SumOracle) (arts : List NCand) : List NProcessed :=
  arts.filterMap (processNewsCandidate o)

/-! ## Dedup-and-Persist stage

`save_processed_gnews_articles` (summary_helper.py lines 322-474) and
`save_processed_articles` (lines 195-319).  The storage state is the list of
natural keys already committed; the Pydantic models (`GNewsSummaryData`,
`ArticleForProcessing`) live in `app/models/summary.py`, which is not part of
the sources, so validation is an oracle returning the validated key fields. -/

/-- A value held in an input dictionary under the `url` or `title` key:
the key can be missing, hold `None`, or hold a string.  (Non-string non-None
values also occur in Python; they behave like `fnone` for the
`isinstance(..., str)` test and are not modelled separately.) -/
inductive Field
  | fmissing
  | fnone
  | fstr (s : String)
  deriving DecidableEq, Repr

/-- The test `isinstance(url_str, str) and url_str` used both by the URL
pre-fetch collection (lines 347-350) and, negated, by the per-item skip guard
(line 375): yields the usable key string or nothing. -/
def Field.validUrl : Field → Option String
  | .fstr s => if s == "" then none else some s
  | _ => none

/-- Whether `article_data.get(title, N/A)[:50]` evaluates without raising:
a missing key defaults to the sliceable string `N/A`, a string slices fine,
but a stored `None` raises `TypeError`. -/
def Field.sliceable : Field → Bool
  | .fnone => false
  | _ => true

/-- Result of `GNewsSummaryData(**article_data)` followed by constructing the
ORM record (lines 403-419): success carries the validated title and the
inserted key `str(pydantic_article.url)`; `vfail` is a `ValidationError`;
`verr` is any other exception from model construction. -/
inductive VRes
  | vok (title url : String)
  | vfail
  | verr
  deriving DecidableEq, Repr

/-- What `await db.commit()` does, as distinguished by the handlers:
plain success, an `IntegrityError` whose `sqlstate` is `23505` (unique
violation), any other `IntegrityError`, or any other exception. -/
inductive CommitOutcome
  | success
  | uniqueViolation
  | integrityOther
  | otherError
  deriving DecidableEq, Repr

/-- One entry of the `processed_articles` argument to
`save_processed_gnews_articles`: the two fields the control flow inspects
directly, plus an opaque tag standing for the rest of the payload (consumed
only by the validation oracle). -/
structure GArt where
  url : Field
  title : Field
  tag : Nat
  deriving DecidableEq, Repr

/-- Session/collaborator behaviour for one `save_processed_gnews_articles`
call: whether the pre-check query raises, the Pydantic/ORM validation oracle,
and the commit behaviour as a function of the pending keys and the stored
keys. -/
structure GCfg where
  precheckFails : Bool
  validate : GArt → VRes
  commit : List String → List String → CommitOutcome

/-- A record prepared for insertion (an element of `articles_to_add`). -/
structure GVal where
  title : String
  url : String
  deriving DecidableEq, Repr

/-- Observable outcome of a persist call: the two counters, the storage state
after the call, the emitted log events, and whether a rollback was performed
(the session is usable afterwards iff the commit either succeeded or was
rolled back, which is every terminating path). -/
structure GRes where
  added : Nat
  skipped : Nat
  state : List String
  logs : List LogEvent
  rolledBack : Bool
  deriving DecidableEq, Repr

/-- The `for article_data in processed_articles` loop of
`save_processed_gnews_articles` (lines 372-446).  Produces the prepared
records in order, the skip counter, and the per-item log events — or the
Python exception that escapes the loop.  A record whose `url` fails the
`isinstance`/truthiness guard, or whose validation fails, reaches a handler
that slices `article_data.get(title, N/A)[:50]`; when the stored title is
`None` that slice raises `TypeError`, which no enclosing handler survives
(the outer `except Exception` handler at line 439 performs the same slice
again), so the loop aborts. -/
def gnewsLoop (v : GArt → VRes) (existing : List String) :
    List GArt → Except String (List GVal × Nat × List LogEvent)
  | [] => .ok ([], 0, [])
  | a :: rest =>
    match a.url.validUrl with
    | none =>
        if a.title.sliceable then
          match gnewsLoop v existing rest with
          | .ok (p, k, ls) => .ok (p, k + 1, ⟨.warning, "missing-or-invalid-url"⟩ :: ls)
          | .error e => .error e
        else .error "TypeError: slice of None title"
    | some u =>
        if existing.contains u then
          match gnewsLoop v existing rest with
          | .ok (p, k, ls) => .ok (p, k + 1, ls)
          | .error e => .error e
        else
          match v a with
          | .vok t pu =>
              match gnewsLoop v existing rest with
              | .ok (p, k, ls) => .ok (⟨t, pu⟩ :: p, k, ⟨.debug, "prepared"⟩ :: ls)
              | .error e => .error e
          | .vfail =>
              if a.title.sliceable then
                match gnewsLoop v existing rest with
                | .ok (p, k, ls) => .ok (p, k + 1, ⟨.warning, "validation-failed"⟩ :: ls)
                | .error e => .error e
              else .error "TypeError: slice of None title"
          | .verr =>
              if a.title.sliceable then
                match gnewsLoop v existing rest with
                | .ok (p, k, ls) => .ok (p, k + 1, ⟨.error, "mapping-failed"⟩ :: ls)
                | .error e => .error e
              else .error "TypeError: slice of None title"

/-- The `potential_urls` list built at lines 346-353. -/
def gnewsPotentialUrls (batch : List GArt) : List String :=
  batch.filterMap (fun a => a.url.validUrl)

/-- The `existing_urls` set after lines 355-369: the pre-check query returns
exactly the potential URLs already stored; if the query raises, the handler
logs and resets the set to empty, falling through to commit-time dedup. -/
def gnewsExisting (precheckFails : Bool) (st : List String) (batch : List GArt) :
    List String :=
  if precheckFails then []
  else (gnewsPotentialUrls batch).filter (fun u => st.contains u)

/-- Tail of `save_processed_gnews_articles` after `existing_urls` is known
(lines 372-474): run the loop, then — only when records were prepared —
`add_all` and a single commit.  On `IntegrityError` (both kinds) the one
handler at line 457 rolls back, logs at error severity, counts all pending
records as skipped and zeroes the added count; the generic handler at
line 465 does the same with a different message.  On success the added count
becomes the number of pending records.  Returns the counters pair (the
Python function returns them at line 474). -/
def saveGnewsCore (v : GArt → VRes) (cm : List String → List String → CommitOutcome)
    (existing : List String) (st : List String) (batch : List GArt) :
    Except String GRes :=
  match gnewsLoop v existing batch with
  | .error e => .error e
  | .ok (pending, skipped, logs) =>
    match pending with
    | [] =>
        .ok { added := 0, skipped := skipped, state := st,
              logs := logs ++ [⟨.info, "none-prepared"⟩, ⟨.info, "finished"⟩],
              rolledBack := false }
    | _ =>
        match cm (pending.map GVal.url) st with
        | .success =>
            .ok { added := pending.length, skipped := skipped,
                  state := st ++ pending.map GVal.url,
                  logs := logs ++ [⟨.info, "committed"⟩, ⟨.info, "finished"⟩],
                  rolledBack := false }
        | .uniqueViolation =>
            .ok { added := 0, skipped := skipped + pending.length, state := st,
                  logs := logs ++ [⟨.error, "commit-integrity"⟩, ⟨.info, "finished"⟩],
                  rolledBack := true }
        | .integrityOther =>
            .ok { added := 0, skipped := skipped + pending.length, state := st,
                  logs := logs ++ [⟨.error, "commit-integrity"⟩, ⟨.info, "finished"⟩],
                  rolledBack := true }
        | .otherError =>
            .ok { added := 0, skipped := skipped + pending.length, state := st,
                  logs := logs ++ [⟨.error, "commit-failed"⟩, ⟨.info, "finished"⟩],
                  rolledBack := true }

/-- Embedding of `save_processed_gnews_articles` (lines 322-474). -/
def save_processed_gnews_articles (cfg : GCfg) (st : List String)
    (batch : List GArt) : Except String GRes :=
  saveGnewsCore cfg.validate cfg.commit (gnewsExisting cfg.precheckFails st batch)
    st batch

/-- One entry of the `processed_articles` argument to
`save_processed_articles`: the `article_id` value (None/missing collapse to
`none` under the truthiness guard at line 220) plus an opaque payload tag
for the validation oracle. -/
structure NArt where
  articleId : Option String
  tag : Nat
  deriving DecidableEq, Repr

/-- Result of `ArticleForProcessing(...)` plus ORM construction
(lines 243-264): success carries the inserted `article_id`. -/
inductive NVRes
  | nok (articleId : String)
  | nfail
  | nerr
  deriving DecidableEq, Repr

/-- Session/collaborator behaviour for one `save_processed_articles` call. -/
structure NCfg where
  precheckFails : Bool
  validate : NArt → NVRes
  commit : List String → List String → CommitOutcome

/-- Truthiness of an `article_id` dictionary value. -/
def nTruthyId : Option String → Option String
  | some s => if s == "" then none else some s
  | none => none

/-- The `for article_data in processed_articles` loop of
`save_processed_articles` (lines 218-283): per item, the truthiness guard,
then the per-item existence query `select(exists()...)` against the committed
state (records prepared earlier in the same call are only in a Python list,
not yet in the session, so the query does not see them), then validation.
Every exception inside the loop body is caught (handlers at lines 265-283),
so the loop itself is total.  Returns prepared ids in order, the added and
skipped counters, and log events. -/
def newsLoop (v : NArt → NVRes) (st : List String) :
    List NArt → List String × Nat × Nat × List LogEvent
  | [] => ([], 0, 0, [])
  | a :: rest =>
    match nTruthyId a.articleId, newsLoop v st rest with
    | none, (p, ad, sk, ls) => (p, ad, sk + 1, ⟨.warning, "missing-article-id"⟩ :: ls)
    | some i, (p, ad, sk, ls) =>
      if st.contains i then (p, ad, sk + 1, ⟨.debug, "already-exists"⟩ :: ls)
      else
        match v a with
        | .nok pid => (pid :: p, ad + 1, sk, ⟨.debug, "prepared"⟩ :: ls)
        | .nfail => (p, ad, sk + 1, ⟨.error, "validation-failed"⟩ :: ls)
        | .nerr => (p, ad, sk + 1, ⟨.error, "mapping-failed"⟩ :: ls)

/-- The `potential_ids` list built at line 211. -/
def newsPotentialIds (batch : List NArt) : List String :=
  batch.filterMap (fun a => nTruthyId a.articleId)

/-- Observable outcome of `save_processed_articles`.  The Python function
returns `None`; the spec's counts are its internal `articles_added_count` and
`articles_skipped_count` variables, which this embedding exposes together
with the final storage state, the logs and whether a rollback happened. -/
structure NRes where
  added : Nat
  skipped : Nat
  state : List String
  logs : List LogEvent
  rolledBack : Bool
  deriving DecidableEq, Repr

/-- Tail of `save_processed_articles` after the pre-check (lines 218-319):
the loop, then commit only when `articles_added_count > 0 and
articles_to_add`; the `IntegrityError` handler (lines 299-309) logs at
warning severity when `sqlstate` is `23505` and at error severity otherwise,
rolls back, and — unlike the GNews variant — leaves both counters
untouched. -/
def saveNewsCore (v : NArt → NVRes) (cm : List String → List String → CommitOutcome)
    (st : List String) (batch : List NArt) : Except String NRes :=
  match newsLoop v st batch with
  | (pending, added, skipped, logs) =>
      if 0 < added && !pending.isEmpty then
        match cm pending st with
        | .success =>
            .ok { added := added, skipped := skipped, state := st ++ pending,
                  logs := logs ++ [⟨.info, "committed"⟩], rolledBack := false }
        | .uniqueViolation =>
            .ok { added := added, skipped := skipped, state := st,
                  logs := logs ++ [⟨.warning, "commit-unique-race"⟩, ⟨.info, "rolled-back"⟩],
                  rolledBack := true }
        | .integrityOther =>
            .ok { added := added, skipped := skipped, state := st,
                  logs := logs ++ [⟨.error, "commit-integrity"⟩, ⟨.info, "rolled-back"⟩],
                  rolledBack := true }
        | .otherError =>
            .ok { added := added, skipped := skipped, state := st,
                  logs := logs ++ [⟨.error, "commit-unexpected"⟩, ⟨.info, "rolled-back"⟩],
                  rolledBack := true }
      else
        .ok { added := added, skipped := skipped, state := st,
              logs := logs ++ [⟨.info, "nothing-added"⟩], rolledBack := false }

/-- Embedding of `save_processed_articles` (summary_helper.py lines 195-319).
The pre-check query at lines 212-215 is executed whenever `potential_ids` is
non-empty and is NOT wrapped in any `try` block: when it raises, the
exception escapes to the caller (modelled as `.error`); otherwise control
continues into `saveNewsCore`. -/
def save_processed_articles (cfg : NCfg) (st : List String) (batch : List NArt) :
    Except String NRes :=
  if cfg.precheckFails && !(newsPotentialIds batch).isEmpty then
    .error "DBError: pre-check query failed"
  else saveNewsCore cfg.validate cfg.commit st batch

/-- Commit behaviour of the storage engine when no concurrent writer races
this transaction: the single commit succeeds exactly when the pending natural
keys are pairwise distinct and none is already stored; otherwise the unique
constraint fires as an `IntegrityError` with `sqlstate 23505`. -/
def honestCommit (pending st : List String) : CommitOutcome :=
  if pending.Nodup ∧ ∀ k ∈ pending, st.contains k = false then .success
  else .uniqueViolation

/-! ## Process startup (config.py, summary_helper.py lines 39-48) -/

/-- Observable state after importing `app.config` and the module-level
initialization of `app.helpers.summary_helper`. -/
structure StartupState where
  started : Bool
  genaiConfigured : Bool
  logs : List LogEvent
  deriving DecidableEq, Repr

/-- Import-time behaviour of `app.config` together with the configuration
block of `summary_helper` (lines 39-48).  When `ENVIRONMENT` is unset,
`os.getenv(ENVIRONMENT).lower()` at config.py line 29 raises
`AttributeError` and the import — hence the process — fails for that
unrelated reason.  When the Gemini key is falsy, config.py line 24 and
summary_helper line 41 log errors and execution continues with
`genai_configured = False`; nothing raises and the process starts.
`configureOk` models whether `genai.configure` succeeds for a present key. -/
def startupInit (geminiKey : Option String) (environment : Option String)
    (configureOk : Bool) : StartupState :=
  match environment with
  | none => { started := false, genaiConfigured := false,
              logs := [⟨.error, "import-failed"⟩] }
  | some _ =>
      if truthyO geminiKey then
        if configureOk then
          { started := true, genaiConfigured := true,
            logs := [⟨.info, "genai-configured"⟩] }
        else
          { started := true, genaiConfigured := false,
            logs := [⟨.error, "genai-configure-failed"⟩] }
      else
        { started := true, genaiConfigured := false,
          logs := [⟨.error, "config-gemini-key-missing"⟩,
                   ⟨.error, "fatal-gemini-key-missing"⟩] }

/-! ## Headline Source Adapters (`fetch_latest_news_data`, `fetch_headlines_data`) -/

/-- An `HTTPException` value as raised by the adapters. -/
structure HttpErr where
  status : Nat
  detail : String
  deriving DecidableEq, Repr

/-- Civil Gregorian date (year, month, day) from days since 1970-01-01,
via the standard era-based conversion. -/
def civilFromDays (z : Nat) : Nat × Nat × Nat :=
  let z := z + 719468
  let era := z / 146097
  let doe := z % 146097
  let yoe := (doe - doe / 1460 + doe / 36524 - doe / 146096) / 365
  let y := yoe + era * 400
  let doy := doe - (365 * yoe + yoe / 4 - yoe / 100)
  let mp := (5 * doy + 2) / 153
  let d := doy - (153 * mp + 2) / 5 + 1
  let m := if mp < 10 then mp + 3 else mp - 9
  (if m ≤ 2 then y + 1 else y, m, d)

/-- Zero-padded two-digit decimal rendering. -/
def pad2 (n : Nat) : String := if n < 10 then "0" ++ toString n else toString n

/-- Zero-padded four-digit decimal rendering. -/
def pad4 (n : Nat) : String :=
  if n < 10 then "000" ++ toString n
  else if n < 100 then "00" ++ toString n
  else if n < 1000 then "0" ++ toString n
  else toString n

/-- The string `YYYY-MM-DDTHH:MM:SSZ` for the aware UTC datetime with Unix
timestamp `t` (seconds): this is what `strftime(%Y-%m-%dT%H:%M:%SZ)` renders
at summary_helper.py line 71, and also what
`isoformat(timespec=seconds).replace(+00:00, Z)` renders at
gnews_helper.py line 30. -/
def formatUtcZ (t : Nat) : String :=
  match civilFromDays (t / 86400) with
  | (y, m, d) =>
      pad4 y ++ "-" ++ pad2 m ++ "-" ++ pad2 d ++ "T" ++
      pad2 (t % 86400 / 3600) ++ ":" ++ pad2 (t % 3600 / 60) ++ ":" ++
      pad2 (t % 60) ++ "Z"

/-- Value of the expression `datetime.datetime.now(datetime.timezone.utc)` at
summary_helper.py line 64.  Line 5 imports the class `datetime` from the
`datetime` module, and that class has no attribute named `datetime`, so this
expression unconditionally raises `AttributeError`; it never yields a time. -/
def newsNowExpr : Except String Nat :=
  .error "AttributeError: type object datetime has no attribute datetime"

/-- Embedding of `fetch_latest_news_data` (summary_helper.py lines 58-103) up
to the construction of the request it would send: evaluate line 64 to get the
current time, subtract twelve hours (line 67), format the `from` parameter
(line 71).  Because line 64 always raises, control always lands in the
`except Exception` handler at line 101, which raises `HTTPException(500)`;
no request carrying a `from` parameter is ever issued. -/
def fetchLatestNewsDataFromParam : Except HttpErr String :=
  match newsNowExpr with
  | .ok t => .ok (formatUtcZ (t - 12 * 3600))
  | .error _ => .error ⟨500, "Unexpected error fetching latest news list."⟩

/-- The `from` parameter built by `fetch_headlines_data`
(gnews_helper.py lines 26-36): now minus one day, rendered as
`YYYY-MM-DDTHH:MM:SSZ` (see `formatUtcZ`). -/
def gnewsFromParam (now : Nat) : String := formatUtcZ (now - 86400)

/-! ## Well-formedness predicates and concrete fixtures -/

/-- A GNews persist record is well formed for validation oracle `v` when its
url is a usable string and validation succeeds with that same string as the
inserted key. -/
def gArtGood (v : GArt → VRes) (a : GArt) : Bool :=
  match a.url.validUrl, v a with
  | some u, .vok _ pu => pu == u
  | _, _ => false

/-- A NewsData persist record is well formed for validation oracle `v` when
its article id is truthy and validation succeeds with that id as the inserted
key. -/
def nArtGood (v : NArt → NVRes) (a : NArt) : Bool :=
  match nTruthyId a.articleId, v a with
  | some i, .nok pid => pid == i
  | _, _ => false

/-- Fixture oracle: every page fetch fails and the Summarizer returns absent. -/
def oracleFetchFails : SumOracle :=
  { fetchPage := fun _ => none
    extract := fun _ => ""
    summarize := fun _ _ => none
    now := 7 }

/-- Fixture oracle: fetch and extraction succeed and the Summarizer returns a
fixed text. -/
def oracleAllGood : SumOracle :=
  { fetchPage := fun _ => some "<p>x</p>"
    extract := fun _ => "body text"
    summarize := fun _ _ => some "AI SUMMARY"
    now := 42 }

/-- Fixture GNews candidate with every interesting field present. -/
def gCandA : GCand :=
  { url := some "https://g/1"
    title := some "Title one"
    description := some "orig gnews desc"
    image := none
    publishedAt := some "2025-04-19T00:00:00Z"
    sourceName := some "Src"
    sourceUrl := some "https://src" }

/-- Fixture NewsData candidate with every interesting field present. -/
def nCandA : NCand :=
  { articleId := some "aid-1"
    title := some "Title two"
    link := some "https://n/1"
    description := some "orig news desc"
    keywords := none
    sourceName := some "SrcN"
    pubDate := some "2025-04-19" }

/-- Record produced for `gCandA` under `oracleAllGood`. -/
def gRecA : GProcessed :=
  { title := some "Title one"
    description := some "orig gnews desc"
    url := some "https://g/1"
    imageUrl := none
    publishedAt := some "2025-04-19T00:00:00Z"
    sourceName := some "Src"
    sourceUrl := some "https://src"
    summary := some "AI SUMMARY"
    summaryGeneratedAt := some 42 }

/-- Record produced for `nCandA` under `oracleAllGood`. -/
def nRecA : NProcessed :=
  { articleId := some "aid-1"
    title := some "Title two"
    referenceUrl := some "https://n/1"
    description := some "orig news desc"
    keywords := none
    summary := some "AI SUMMARY"
    sourceName := some "SrcN"
    pubDate := some "2025-04-19"
    summaryGeneratedAt := some 42 }

/-- Record produced for `gCandA` under `oracleFetchFails`: the description
becomes the output summary, no generation timestamp. -/
def gRecFallbackA : GProcessed :=
  { title := some "Title one"
    description := some "orig gnews desc"
    url := some "https://g/1"
    imageUrl := none
    publishedAt := some "2025-04-19T00:00:00Z"
    sourceName := some "Src"
    sourceUrl := some "https://src"
    summary := some "orig gnews desc"
    summaryGeneratedAt := none }

/-- Record produced for `nCandA` under `oracleFetchFails`: the summary stays
absent even though the description is present. -/
def nRecFallback : NProcessed :=
  { articleId := some "aid-1"
    title := some "Title two"
    referenceUrl := some "https://n/1"
    description := some "orig news desc"
    keywords := none
    summary := none
    sourceName := some "SrcN"
    pubDate := some "2025-04-19"
    summaryGeneratedAt := none }

/-- Fixture GNews validation oracle: every record with a string url validates
and the inserted key is that url. -/
def gValidateOk : GArt → VRes := fun a =>
  match a.url with
  | .fstr s => .vok ("T" ++ toString a.tag) s
  | _ => .vfail

/-- Fixture NewsData validation oracle. -/
def nValidateOk : NArt → NVRes := fun a =>
  match a.articleId with
  | some s => .nok s
  | none => .nfail

/-- Fixture two-record GNews batch with distinct keys. -/
def gBatch2 : List GArt :=
  [⟨.fstr "https://g/1", .fstr "t1", 1⟩, ⟨.fstr "https://g/2", .fstr "t2", 2⟩]

/-- Fixture five-record GNews batch with distinct keys. -/
def gBatch5 : List GArt :=
  [⟨.fstr "u1", .fstr "t1", 1⟩, ⟨.fstr "u2", .fstr "t2", 2⟩,
   ⟨.fstr "u3", .fstr "t3", 3⟩, ⟨.fstr "u4", .fstr "t4", 4⟩,
   ⟨.fstr "u5", .fstr "t5", 5⟩]

/-- Fixture two-record NewsData batch with distinct keys. -/
def nBatch2 : List NArt := [⟨some "a1", 1⟩, ⟨some "a2", 2⟩]

/-- Fixture five-record NewsData batch with distinct keys. -/
def nBatch5 : List NArt :=
  [⟨some "a1", 1⟩, ⟨some "a2", 2⟩, ⟨some "a3", 3⟩, ⟨some "a4", 4⟩, ⟨some "a5", 5⟩]

/-- Fixture GNews candidate with a natural key and link but no title. -/
def gCandNoTitle : GCand :=
  { url := some "https://g/x"
    title := none
    description := some "desc x"
    image := none
    publishedAt := none
    sourceName := none
    sourceUrl := none }

/-- Result of the GNews persist on `gBatch5` with a commit that hits the
unique constraint: everything skipped, state unchanged, rollback done, and
the event logged at error severity. -/
def gRes5 : GRes :=
  { added := 0
    skipped := 5
    state := []
    logs := [⟨.debug, "prepared"⟩, ⟨.debug, "prepared"⟩, ⟨.debug, "prepared"⟩,
             ⟨.debug, "prepared"⟩, ⟨.debug, "prepared"⟩,
             ⟨.error, "commit-integrity"⟩, ⟨.info, "finished"⟩]
    rolledBack := true }

/-! # Theorems -/

/-! ## Helper lemmas for the pipeline processors -/

/-- Computation rule for `processGnewsCandidate` when the skip guard passes. -/
theorem processGnewsCandidate_pos (o : SumOracle) (c : GCand)
    (h : (truthyO c.url && truthyO c.title) = true) :
    processGnewsCandidate o c =
      some { title := c.title, description := c.description, url := c.url,
             imageUrl := c.image, publishedAt := c.publishedAt,
             sourceName := c.sourceName, sourceUrl := c.sourceUrl,
             summary :=
               if truthyO (gnewsSummaryResult o (c.url.getD "") c.title) then
                 gnewsSummaryResult o (c.url.getD "") c.title
               else c.description,
             summaryGeneratedAt :=
               if truthyO (gnewsSummaryResult o (c.url.getD "") c.title) then
                 some o.now
               else none } := by
  rw [processGnewsCandidate, if_pos h]

/-- Computation rule for `processNewsCandidate` when both guards pass. -/
theorem processNewsCandidate_pos (o : SumOracle) (c : NCand)
    (h1 : truthyO c.articleId = true) (h2 : truthyO c.link = true) :
    processNewsCandidate o c =
      some { articleId := c.articleId, title := c.title, referenceUrl := c.link,
             description := c.description, keywords := c.keywords,
             summary := newsSummaryResult o (c.link.getD "") c.description c.title,
             sourceName := c.sourceName, pubDate := c.pubDate,
             summaryGeneratedAt :=
               if truthyO (newsSummaryResult o (c.link.getD "") c.description c.title) then
                 some o.now
               else none } := by
  rw [processNewsCandidate, if_pos h1, if_pos h2]

/-- A produced GNews record implies the url-and-title guard passed. -/
theorem processGnewsCandidate_guard (o : SumOracle) (c : GCand) (r : GProcessed)
    (hg : processGnewsCandidate o c = some r) :
    (truthyO c.url && truthyO c.title) = true := by
  by_contra hx
  rw [processGnewsCandidate, if_neg hx] at hg
  exact Option.noConfusion hg

/-- A produced NewsData record implies both skip guards passed. -/
theorem processNewsCandidate_guards (o : SumOracle) (c : NCand) (s : NProcessed)
    (hn : processNewsCandidate o c = some s) :
    truthyO c.articleId = true ∧ truthyO c.link = true := by
  by_cases h1 : truthyO c.articleId = true
  · by_cases h2 : truthyO c.link = true
    · exact ⟨h1, h2⟩
    · rw [processNewsCandidate, if_pos h1, if_neg h2] at hn
      exact Option.noConfusion hn
  · rw [processNewsCandidate, if_neg h1] at hn
    exact Option.noConfusion hn

/-! ## Helper lemmas for the persist stage -/

/-- Unpack a well-formed GNews persist record: its url is usable and
validation succeeds with that url as the key. -/
theorem gArtGood_elim (v : GArt → VRes) (a : GArt) (h : gArtGood v a = true) :
    ∃ u t, a.url.validUrl = some u ∧ v a = .vok t u := by
  cases hu : a.url.validUrl with
  | none => simp [gArtGood, hu] at h
  | some u =>
      cases hv : v a with
      | vok t pu =>
          have hpu : pu = u := by simpa [gArtGood, hu, hv] using h
          exact ⟨u, t, rfl, by rw [hpu]⟩
      | vfail => simp [gArtGood, hu, hv] at h
      | verr => simp [gArtGood, hu, hv] at h

/-- Unpack a well-formed NewsData persist record. -/
theorem nArtGood_elim (v : NArt → NVRes) (a : NArt) (h : nArtGood v a = true) :
    ∃ i, nTruthyId a.articleId = some i ∧ v a = .nok i := by
  cases hi : nTruthyId a.articleId with
  | none => simp [nArtGood, hi] at h
  | some i =>
      cases hv : v a with
      | nok pid =>
          have hpid : pid = i := by simpa [nArtGood, hi, hv] using h
          exact ⟨i, rfl, by rw [hpid]⟩
      | nfail => simp [nArtGood, hi, hv] at h
      | nerr => simp [nArtGood, hi, hv] at h

/-- GNews loop over well-formed records none of whose keys is in the
`existing` set: nothing is skipped, each record is prepared in order, only
debug events are logged. -/
theorem gnewsLoop_all_new (v : GArt → VRes) (ex : List String) (l : List GArt)
    (hgood : ∀ a ∈ l, gArtGood v a = true)
    (hnew : ∀ a ∈ l, ∀ u, a.url.validUrl = some u → ex.contains u = false) :
    ∃ p ls, gnewsLoop v ex l = .ok (p, 0, ls) ∧
      p.map GVal.url = gnewsPotentialUrls l ∧
      p.length = l.length ∧
      ∀ e ∈ ls, e.level = .debug := by
  induction l with
  | nil =>
      refine ⟨[], [], rfl, rfl, rfl, ?_⟩
      intro e he
      cases he
  | cons a rest ih =>
      obtain ⟨p, ls, hloop, hmap, hlen, hdbg⟩ :=
        ih (fun b hb => hgood b (List.mem_cons_of_mem a hb))
           (fun b hb => hnew b (List.mem_cons_of_mem a hb))
      obtain ⟨u, t, hu, hv⟩ :=
        gArtGood_elim v a (hgood a (List.mem_cons_self a rest))
      have hcon : u ∉ ex := by simpa using hnew a (List.mem_cons_self a rest) u hu
      refine ⟨⟨t, u⟩ :: p, ⟨.debug, "prepared"⟩ :: ls, ?_, ?_, ?_, ?_⟩
      · simp [gnewsLoop, hu, hcon, hv, hloop]
      · simp [gnewsPotentialUrls, List.filterMap_cons, hu]
        simpa [gnewsPotentialUrls] using hmap
      · simpa using hlen
      · intro e he
        rcases List.mem_cons.mp he with rfl | hin
        · rfl
        · exact hdbg e hin

/-- GNews loop over records whose keys are all in the `existing` set:
everything is skipped without logging. -/
theorem gnewsLoop_all_existing (v : GArt → VRes) (ex : List String) (l : List GArt)
    (h : ∀ a ∈ l, ∃ u, a.url.validUrl = some u ∧ ex.contains u = true) :
    gnewsLoop v ex l = .ok ([], l.length, []) := by
  induction l with
  | nil => rfl
  | cons a rest ih =>
      obtain ⟨u, hu, hcon⟩ := h a (List.mem_cons_self a rest)
      have hmem : u ∈ ex := by simpa using hcon
      have hrest := ih (fun b hb => h b (List.mem_cons_of_mem a hb))
      simp [gnewsLoop, hu, hmem, hrest]

/-- The GNews loop never raises when every record's title entry is missing or
a string (so that the error handlers' title slice cannot raise). -/
theorem gnewsLoop_ok_of_sliceable (v : GArt → VRes) (ex : List String)
    (l : List GArt) (h : ∀ a ∈ l, a.title.sliceable = true) :
    ∃ x, gnewsLoop v ex l = .ok x := by
  induction l with
  | nil => exact ⟨([], 0, []), rfl⟩
  | cons a rest ih =>
      obtain ⟨⟨p, k, ls⟩, hx⟩ := ih (fun b hb => h b (List.mem_cons_of_mem a hb))
      have ha := h a (List.mem_cons_self a rest)
      cases hu : a.url.validUrl with
      | none =>
          exact ⟨(p, k + 1, ⟨.warning, "missing-or-invalid-url"⟩ :: ls),
            by simp [gnewsLoop, hu, ha, hx]⟩
      | some u =>
          by_cases hcon : u ∈ ex
          · exact ⟨(p, k + 1, ls), by simp [gnewsLoop, hu, hcon, hx]⟩
          · cases hv : v a with
            | vok t pu =>
                exact ⟨(⟨t, pu⟩ :: p, k, ⟨.debug, "prepared"⟩ :: ls),
                  by simp [gnewsLoop, hu, hcon, hv, hx]⟩
            | vfail =>
                exact ⟨(p, k + 1, ⟨.warning, "validation-failed"⟩ :: ls),
                  by simp [gnewsLoop, hu, hcon, hv, ha, hx]⟩
            | verr =>
                exact ⟨(p, k + 1, ⟨.error, "mapping-failed"⟩ :: ls),
                  by simp [gnewsLoop, hu, hcon, hv, ha, hx]⟩

/-- NewsData loop over well-formed records none of whose ids is stored. -/
theorem newsLoop_all_new (v : NArt → NVRes) (st : List String) (l : List NArt)
    (hgood : ∀ a ∈ l, nArtGood v a = true)
    (hnew : ∀ i ∈ newsPotentialIds l, st.contains i = false) :
    newsLoop v st l =
      (newsPotentialIds l, l.length, 0,
        List.replicate l.length ⟨.debug, "prepared"⟩) := by
  induction l with
  | nil => rfl
  | cons a rest ih =>
      obtain ⟨i, hi, hv⟩ :=
        nArtGood_elim v a (hgood a (List.mem_cons_self a rest))
      have hmem : i ∈ newsPotentialIds (a :: rest) := by
        simp [newsPotentialIds, List.filterMap_cons, hi]
      have hcon : i ∉ st := by simpa using hnew i hmem
      have hrest := ih (fun b hb => hgood b (List.mem_cons_of_mem a hb))
        (fun j hj => hnew j (by
          simp [newsPotentialIds, List.filterMap_cons, hi]
          right
          simpa [newsPotentialIds] using hj))
      simp [newsLoop, hi, hcon, hv, hrest, newsPotentialIds, List.filterMap_cons,
        List.replicate_succ]

/-- NewsData loop over records whose ids are all stored already. -/
theorem newsLoop_all_existing (v : NArt → NVRes) (st : List String) (l : List NArt)
    (h : ∀ a ∈ l, ∃ i, nTruthyId a.articleId = some i ∧ st.contains i = true) :
    newsLoop v st l =
      ([], 0, l.length, List.replicate l.length ⟨.debug, "already-exists"⟩) := by
  induction l with
  | nil => rfl
  | cons a rest ih =>
      obtain ⟨i, hi, hcon⟩ := h a (List.mem_cons_self a rest)
      have hmem : i ∈ st := by simpa using hcon
      have hrest := ih (fun b hb => h b (List.mem_cons_of_mem a hb))
      simp [newsLoop, hi, hmem, hrest, List.replicate_succ]

/-- First run of the GNews persist with honest commit behaviour on an
all-new well-formed batch: everything is added, nothing skipped, the keys
land in storage. -/
theorem save_gnews_fresh (gv : GArt → VRes) (st : List String) (gb : List GArt)
    (hg : ∀ a ∈ gb, gArtGood gv a = true)
    (hgn : (gnewsPotentialUrls gb).Nodup)
    (hgs : ∀ u ∈ gnewsPotentialUrls gb, st.contains u = false) :
    ∃ r, save_processed_gnews_articles ⟨false, gv, honestCommit⟩ st gb = .ok r ∧
      r.added = gb.length ∧ r.skipped = 0 ∧
      r.state = st ++ gnewsPotentialUrls gb := by
  have hex : gnewsExisting false st gb = [] := by
    show (gnewsPotentialUrls gb).filter (fun u => st.contains u) = []
    rw [List.filter_eq_nil_iff]
    intro u hu
    simpa using hgs u hu
  have hw : save_processed_gnews_articles ⟨false, gv, honestCommit⟩ st gb =
      saveGnewsCore gv honestCommit [] st gb := by
    show saveGnewsCore gv honestCommit (gnewsExisting false st gb) st gb = _
    rw [hex]
  obtain ⟨p, ls, hloop, hmap, hlen, _⟩ :=
    gnewsLoop_all_new gv [] gb hg (by intro a _ u _; rfl)
  rw [hw]
  unfold saveGnewsCore
  rw [hloop]
  cases p with
  | nil =>
      have hlen0 : gb.length = 0 := by simpa using hlen.symm
      have hpot : gnewsPotentialUrls gb = [] := by simpa using hmap.symm
      exact ⟨_, rfl, by simp [hlen0], rfl, by simp [hpot]⟩
  | cons gh gt =>
      have hcommit : honestCommit ((gh :: gt).map GVal.url) st = .success := by
        rw [hmap]
        unfold honestCommit
        rw [if_pos ⟨hgn, hgs⟩]
      simp only [hcommit]
      exact ⟨_, rfl, by simpa using hlen, rfl, by rw [hmap]⟩

/-- Second run of the GNews persist: every key of the well-formed batch is
already stored, so everything is skipped via the pre-check and nothing is
committed. -/
theorem save_gnews_rerun (gv : GArt → VRes) (st : List String) (gb : List GArt)
    (hg : ∀ a ∈ gb, gArtGood gv a = true)
    (hall : ∀ u ∈ gnewsPotentialUrls gb, st.contains u = true) :
    save_processed_gnews_articles ⟨false, gv, honestCommit⟩ st gb =
      .ok { added := 0, skipped := gb.length, state := st,
            logs := [⟨.info, "none-prepared"⟩, ⟨.info, "finished"⟩],
            rolledBack := false } := by
  have hex : gnewsExisting false st gb = gnewsPotentialUrls gb := by
    show (gnewsPotentialUrls gb).filter (fun u => st.contains u) = _
    rw [List.filter_eq_self]
    exact hall
  have hloop := gnewsLoop_all_existing gv (gnewsPotentialUrls gb) gb (by
    intro a ha
    obtain ⟨u, t, hu, _⟩ := gArtGood_elim gv a (hg a ha)
    refine ⟨u, hu, ?_⟩
    have : u ∈ gnewsPotentialUrls gb :=
      List.mem_filterMap.mpr ⟨a, ha, hu⟩
    simpa using this)
  have hw : save_processed_gnews_articles ⟨false, gv, honestCommit⟩ st gb =
      saveGnewsCore gv honestCommit (gnewsPotentialUrls gb) st gb := by
    show saveGnewsCore gv honestCommit (gnewsExisting false st gb) st gb = _
    rw [hex]
  rw [hw]
  unfold saveGnewsCore
  rw [hloop]
  rfl

/-- GNews persist on an all-new well-formed non-empty batch whose single
commit hits the unique constraint: full rollback, everything counted skipped,
zero added, and the event logged at error (never warning) severity. -/
theorem save_gnews_commit_violation (gv : GArt → VRes)
    (cm : List String → List String → CommitOutcome) (st : List String)
    (gb : List GArt)
    (hg : ∀ a ∈ gb, gArtGood gv a = true)
    (hgs : ∀ u ∈ gnewsPotentialUrls gb, st.contains u = false)
    (hne : gb ≠ [])
    (hcm : cm (gnewsPotentialUrls gb) st = .uniqueViolation) :
    ∃ r, save_processed_gnews_articles ⟨false, gv, cm⟩ st gb = .ok r ∧
      r.added = 0 ∧ r.skipped = gb.length ∧ r.state = st ∧
      r.rolledBack = true ∧
      LogEvent.mk .error "commit-integrity" ∈ r.logs ∧
      ∀ e ∈ r.logs, e.level ≠ .warning := by
  have hex : gnewsExisting false st gb = [] := by
    show (gnewsPotentialUrls gb).filter (fun u => st.contains u) = []
    rw [List.filter_eq_nil_iff]
    intro u hu
    simpa using hgs u hu
  have hw : save_processed_gnews_articles ⟨false, gv, cm⟩ st gb =
      saveGnewsCore gv cm [] st gb := by
    show saveGnewsCore gv cm (gnewsExisting false st gb) st gb = _
    rw [hex]
  obtain ⟨p, ls, hloop, hmap, hlen, hdbg⟩ :=
    gnewsLoop_all_new gv [] gb hg (by intro a _ u _; rfl)
  rw [hw]
  unfold saveGnewsCore
  rw [hloop]
  cases p with
  | nil =>
      exact absurd (List.length_eq_zero.mp (by simpa using hlen.symm)) hne
  | cons gh gt =>
      have hcommit : cm ((gh :: gt).map GVal.url) st = .uniqueViolation := by
        rw [hmap, hcm]
      simp only [hcommit]
      refine ⟨_, rfl, rfl, by simpa using hlen, rfl, rfl, ?_, ?_⟩
      · simp
      · intro e he
        rcases List.mem_append.mp he with hin | hin
        · rw [hdbg e hin]
          decide
        · rcases List.mem_cons.mp hin with rfl | hin2
          · decide
          · rcases List.mem_cons.mp hin2 with rfl | hin3
            · decide
            · cases hin3

/-- NewsData persist with honest commit behaviour on an all-new well-formed
batch. -/
theorem save_news_fresh (nv : NArt → NVRes) (st : List String) (nb : List NArt)
    (hn : ∀ a ∈ nb, nArtGood nv a = true)
    (hnn : (newsPotentialIds nb).Nodup)
    (hns : ∀ i ∈ newsPotentialIds nb, st.contains i = false) :
    ∃ q, save_processed_articles ⟨false, nv, honestCommit⟩ st nb = .ok q ∧
      q.added = nb.length ∧ q.skipped = 0 ∧
      q.state = st ++ newsPotentialIds nb := by
  have hloop := newsLoop_all_new nv st nb hn hns
  have hw : save_processed_articles ⟨false, nv, honestCommit⟩ st nb =
      saveNewsCore nv honestCommit st nb := rfl
  rw [hw]
  unfold saveNewsCore
  rw [hloop]
  cases nb with
  | nil => exact ⟨_, rfl, rfl, rfl, by simp [newsPotentialIds]⟩
  | cons a rest =>
      obtain ⟨i, hi, _⟩ := nArtGood_elim nv a (hn a (List.mem_cons_self a rest))
      have hpend : newsPotentialIds (a :: rest) = i :: newsPotentialIds rest := by
        simp [newsPotentialIds, List.filterMap_cons, hi]
      have hcommit : honestCommit (newsPotentialIds (a :: rest)) st = .success := by
        unfold honestCommit
        rw [if_pos ⟨hnn, hns⟩]
      have hney : (newsPotentialIds (a :: rest)).isEmpty = false := by
        rw [hpend]
        rfl
      simp only [hcommit, hney, List.length_cons, Nat.succ_pos, decide_True,
        Bool.not_false, Bool.and_self, if_true]
      exact ⟨_, rfl, rfl, rfl, rfl⟩

/-- Second run of the NewsData persist: every id of the well-formed batch is
already stored; the internal counters end at zero added and everything
skipped, with no commit. -/
theorem save_news_rerun (nv : NArt → NVRes) (st : List String) (nb : List NArt)
    (hn : ∀ a ∈ nb, nArtGood nv a = true)
    (hall : ∀ i ∈ newsPotentialIds nb, st.contains i = true) :
    save_processed_articles ⟨false, nv, honestCommit⟩ st nb =
      .ok { added := 0, skipped := nb.length, state := st,
            logs := List.replicate nb.length ⟨.debug, "already-exists"⟩ ++
              [⟨.info, "nothing-added"⟩],
            rolledBack := false } := by
  have hloop := newsLoop_all_existing nv st nb (by
    intro a ha
    obtain ⟨i, hi, _⟩ := nArtGood_elim nv a (hn a ha)
    exact ⟨i, hi, hall i (List.mem_filterMap.mpr ⟨a, ha, hi⟩)⟩)
  have hw : save_processed_articles ⟨false, nv, honestCommit⟩ st nb =
      saveNewsCore nv honestCommit st nb := rfl
  rw [hw]
  unfold saveNewsCore
  rw [hloop]
  rfl

/-- NewsData persist on an all-new well-formed non-empty batch whose single
commit hits the unique constraint: rollback and a warning-severity log, but
the internal counters keep their pre-commit values (the added count stays at
the batch size and nothing more is counted skipped). -/
theorem save_news_commit_violation (nv : NArt → NVRes)
    (cm : List String → List String → CommitOutcome) (st : List String)
    (nb : List NArt)
    (hn : ∀ a ∈ nb, nArtGood nv a = true)
    (hns : ∀ i ∈ newsPotentialIds nb, st.contains i = false)
    (hne : nb ≠ [])
    (hcm : cm (newsPotentialIds nb) st = .uniqueViolation) :
    save_processed_articles ⟨false, nv, cm⟩ st nb =
      .ok { added := nb.length, skipped := 0, state := st,
            logs := List.replicate nb.length ⟨.debug, "prepared"⟩ ++
              [⟨.warning, "commit-unique-race"⟩, ⟨.info, "rolled-back"⟩],
            rolledBack := true } := by
  have hloop := newsLoop_all_new nv st nb hn hns
  have hw : save_processed_articles ⟨false, nv, cm⟩ st nb =
      saveNewsCore nv cm st nb := rfl
  rw [hw]
  unfold saveNewsCore
  rw [hloop]
  cases nb with
  | nil => exact absurd rfl hne
  | cons a rest =>
      obtain ⟨i, hi, _⟩ := nArtGood_elim nv a (hn a (List.mem_cons_self a rest))
      have hpend : newsPotentialIds (a :: rest) = i :: newsPotentialIds rest := by
        simp [newsPotentialIds, List.filterMap_cons, hi]
      have hney : (newsPotentialIds (a :: rest)).isEmpty = false := by
        rw [hpend]
        rfl
      simp only [hcm, hney, List.length_cons, Nat.succ_pos, decide_True,
        Bool.not_false, Bool.and_self, if_true]

/-- The GNews persist core returns a result (never an exception) whenever its
loop does. -/
theorem saveGnewsCore_ok_of_loop_ok (v : GArt → VRes)
    (cm : List String → List String → CommitOutcome) (ex st : List String)
    (batch : List GArt) (x : List GVal × Nat × List LogEvent)
    (hx : gnewsLoop v ex batch = .ok x) :
    (saveGnewsCore v cm ex st batch).isOk = true := by
  unfold saveGnewsCore
  rw [hx]
  obtain ⟨p, k, ls⟩ := x
  cases p with
  | nil => rfl
  | cons gh gt =>
      dsimp only
      cases cm ((gh :: gt).map GVal.url) st <;> rfl

/-! ## C1 -/

/-- C1 (confirmed): in both pipelines the output record's
`summary_generated_at` is non-absent exactly when the Summarizer returned a
usable (Python-truthy, i.e. neither `None` nor empty) value for that article
in that run, and whenever it is set the `summary` field is precisely the
Summarizer's returned text — never the fallback description path. -/
theorem claim_C1_timestamp_iff_summarizer (o : SumOracle) (c : GCand) (n : NCand)
    (r : GProcessed) (s : NProcessed)
    (hg : processGnewsCandidate o c = some r)
    (hn : processNewsCandidate o n = some s) :
    (r.summaryGeneratedAt.isSome =
        truthyO (gnewsSummaryResult o (c.url.getD "") c.title)) ∧
    (r.summaryGeneratedAt.isSome = true →
        r.summary = gnewsSummaryResult o (c.url.getD "") c.title) ∧
    (s.summaryGeneratedAt.isSome =
        truthyO (newsSummaryResult o (n.link.getD "") n.description n.title)) ∧
    (s.summaryGeneratedAt.isSome = true →
        s.summary = newsSummaryResult o (n.link.getD "") n.description n.title) := by
  have hcg := processGnewsCandidate_guard o c r hg
  obtain ⟨hn1, hn2⟩ := processNewsCandidate_guards o n s hn
  rw [processGnewsCandidate_pos o c hcg] at hg
  rw [processNewsCandidate_pos o n hn1 hn2] at hn
  have hr := Option.some.inj hg
  have hs := Option.some.inj hn
  subst hr
  subst hs
  refine ⟨?_, ?_, ?_, ?_⟩
  · cases htr : truthyO (gnewsSummaryResult o (c.url.getD "") c.title) <;> simp [htr]
  · intro hset
    cases htr : truthyO (gnewsSummaryResult o (c.url.getD "") c.title)
    · simp [htr] at hset
    · simp [htr]
  · cases htr : truthyO (newsSummaryResult o (n.link.getD "") n.description n.title) <;>
      simp [htr]
  · intro _
    rfl

/-- Witness for C1 at a concrete oracle and concrete candidates. -/
theorem claim_C1_timestamp_iff_summarizer_witness :
    (gRecA.summaryGeneratedAt.isSome =
        truthyO (gnewsSummaryResult oracleAllGood (gCandA.url.getD "") gCandA.title)) ∧
    (gRecA.summaryGeneratedAt.isSome = true →
        gRecA.summary = gnewsSummaryResult oracleAllGood (gCandA.url.getD "") gCandA.title) ∧
    (nRecA.summaryGeneratedAt.isSome =
        truthyO (newsSummaryResult oracleAllGood (nCandA.link.getD "")
          nCandA.description nCandA.title)) ∧
    (nRecA.summaryGeneratedAt.isSome = true →
        nRecA.summary = newsSummaryResult oracleAllGood (nCandA.link.getD "")
          nCandA.description nCandA.title) :=
  claim_C1_timestamp_iff_summarizer oracleAllGood gCandA nCandA gRecA nRecA rfl rfl

/-! ## C5 -/

/-- C5 counterexample: a NewsData candidate with a present description for
which the Summarizer returns absent — the resulting record's summary is
absent, not the description, contrary to the claim. -/
theorem claim_C5_counterexample :
    processNewsCandidate oracleFetchFails nCandA = some nRecFallback ∧
    newsSummaryResult oracleFetchFails (nCandA.link.getD "")
      nCandA.description nCandA.title = none ∧
    nCandA.description = some "orig news desc" ∧
    nRecFallback.summary = none ∧
    ¬ nRecFallback.summary = nCandA.description :=
  ⟨rfl, rfl, rfl, rfl, by decide⟩

/-- C5 amended: on a non-truthy Summarizer outcome the GNews pipeline sets
`summary` to the original description (absent when absent) and leaves the
timestamp absent, whereas the NewsData pipeline leaves `summary` as the
Summarizer's own (absent) result — it does not copy the description — and
leaves the timestamp absent. -/
theorem claim_C5_fallback_summary (o : SumOracle) (c : GCand) (n : NCand)
    (r : GProcessed) (s : NProcessed)
    (hg : processGnewsCandidate o c = some r)
    (hn : processNewsCandidate o n = some s)
    (hgr : truthyO (gnewsSummaryResult o (c.url.getD "") c.title) = false)
    (hnr : truthyO (newsSummaryResult o (n.link.getD "") n.description n.title) = false) :
    (r.summary = c.description ∧ r.summaryGeneratedAt = none) ∧
    (s.summary = newsSummaryResult o (n.link.getD "") n.description n.title ∧
     s.summaryGeneratedAt = none) := by
  have hcg := processGnewsCandidate_guard o c r hg
  obtain ⟨hn1, hn2⟩ := processNewsCandidate_guards o n s hn
  rw [processGnewsCandidate_pos o c hcg] at hg
  rw [processNewsCandidate_pos o n hn1 hn2] at hn
  have hr := Option.some.inj hg
  have hs := Option.some.inj hn
  subst hr
  subst hs
  refine ⟨⟨?_, ?_⟩, rfl, ?_⟩ <;> simp [hgr, hnr]

/-- Witness for C5 at a concrete oracle and concrete candidates. -/
theorem claim_C5_fallback_summary_witness :
    (gRecFallbackA.summary = gCandA.description ∧
     gRecFallbackA.summaryGeneratedAt = none) ∧
    (nRecFallback.summary = newsSummaryResult oracleFetchFails (nCandA.link.getD "")
        nCandA.description nCandA.title ∧
     nRecFallback.summaryGeneratedAt = none) :=
  claim_C5_fallback_summary oracleFetchFails gCandA nCandA gRecFallbackA nRecFallback
    rfl rfl rfl rfl

/-! ## C6 -/

/-- C6 counterexample: a GNews candidate with key, link and a present
description whose page fetch fails — the Summarizer is passed no text at all
(its input is absent, not the description); the description only becomes the
output summary directly. -/
theorem claim_C6_counterexample :
    truthyO gCandA.url = true ∧ truthyO gCandA.title = true ∧
    gCandA.description = some "orig gnews desc" ∧
    oracleFetchFails.fetchPage (gCandA.url.getD "") = none ∧
    gnewsSummarizerInput oracleFetchFails (gCandA.url.getD "") = none ∧
    processGnewsCandidate oracleFetchFails gCandA = some gRecFallbackA ∧
    gRecFallbackA.summary = some "orig gnews desc" ∧
    gRecFallbackA.summaryGeneratedAt = none :=
  ⟨rfl, rfl, rfl, rfl, rfl, rfl, rfl, rfl⟩

/-- C6 amended: when the Fetcher returns no content, or returns content whose
extraction yields no text, the NewsData pipeline passes the (truthy)
description to the Summarizer as its input, while the GNews pipeline does not
invoke the Summarizer at all in those cases (its input is absent). -/
theorem claim_C6_description_fallback (o : SumOracle) (link url : String)
    (desc : Option String)
    (hfl : o.fetchPage link = none ∨
      ∃ h, o.fetchPage link = some h ∧ (h == "") = false ∧ o.extract h = "")
    (hfu : o.fetchPage url = none ∨
      ∃ h, o.fetchPage url = some h ∧ (h == "") = false ∧ o.extract h = "")
    (hdesc : truthyO desc = true) :
    newsSummarizerInput o link desc = desc ∧
    gnewsSummarizerInput o url = none := by
  obtain ⟨d, hd⟩ : ∃ d, desc = some d := by
    cases desc
    · simp [truthyO] at hdesc
    · exact ⟨_, rfl⟩
  subst hd
  have hdne : (d == "") = false := by
    simpa [truthyO] using hdesc
  constructor
  · rcases hfl with hnone | ⟨h, hsome, hne, hext⟩
    · simp [newsSummarizerInput, newsText, hnone, hdne]
    · simp [newsSummarizerInput, newsText, hsome, hne, hext, hdne]
  · rcases hfu with hnone | ⟨h, hsome, hne, hext⟩
    · simp [gnewsSummarizerInput, gnewsText, hnone]
    · simp [gnewsSummarizerInput, gnewsText, hsome, hne, hext]

/-- Witness for C6 at a concrete oracle with failing fetches. -/
theorem claim_C6_description_fallback_witness :
    newsSummarizerInput oracleFetchFails "https://n/1" (some "orig news desc") =
      some "orig news desc" ∧
    gnewsSummarizerInput oracleFetchFails "https://g/1" = none :=
  claim_C6_description_fallback oracleFetchFails "https://n/1" "https://g/1"
    (some "orig news desc") (Or.inl rfl) (Or.inl rfl) (by decide)

/-! ## C7 -/

/-- C7 counterexample: with the Gemini API key missing (and the unrelated
`ENVIRONMENT` variable set), the process starts anyway — it does not refuse
to start. -/
theorem claim_C7_counterexample :
    (startupInit none (some "local") true).started = true := rfl

/-- C7 amended: when the AI API key is missing at process startup, the
process logs fatal-severity configuration errors and starts anyway, with the
Summarizer capability disabled for the whole process lifetime
(`genai_configured` stays false). -/
theorem claim_C7_starts_with_summarizer_disabled (env : String) (configureOk : Bool) :
    (startupInit none (some env) configureOk).started = true ∧
    (startupInit none (some env) configureOk).genaiConfigured = false ∧
    LogEvent.mk .error "fatal-gemini-key-missing" ∈
      (startupInit none (some env) configureOk).logs := by
  refine ⟨rfl, rfl, ?_⟩
  simp [startupInit, truthyO]

/-! ## C8 -/

/-- C8 (code evaluated at the failing input): `fetch_latest_news_data`
raises `HTTPException(500)` on every invocation — the `datetime.datetime`
slip at line 64 raises before any request parameters exist, so no request
carrying a `from` value is ever sent by the NewsData adapter; the GNews
adapter's `from` parameter, evaluated at the concrete instant 1745123400,
is rendered bit-exactly as `YYYY-MM-DDTHH:MM:SSZ`. -/
theorem claim_C8_newsdata_adapter_never_builds_request :
    fetchLatestNewsDataFromParam =
      Except.error ⟨500, "Unexpected error fetching latest news list."⟩ ∧
    gnewsFromParam 1745123400 = "2025-04-19T04:30:00Z" :=
  ⟨rfl, rfl⟩

/-! ## C9 -/

/-- C9 (confirmed): the Content Fetcher returns the page text exactly when
the final response is HTTP 2xx with an HTML-indicating content-type; any
other content-type (e.g. a 200 `application/pdf` response), any non-2xx
status, any transport-level error or timeout yields absent — and, every
handler outcome being a case of this total embedding, it never raises. -/
theorem claim_C9_fetcher_contract :
    (∀ (status : Nat) (ct body text : String),
        fetch_page_content (.response status ct body) = some text ↔
          200 ≤ status ∧ status < 300 ∧ contentTypeIsHtml ct = true ∧ text = body) ∧
    fetch_page_content .transportError = none ∧
    fetch_page_content .timedOut = none ∧
    fetch_page_content .otherFailure = none ∧
    fetch_page_content (.response 200 "application/pdf" "PDFBYTES") = none := by
  refine ⟨?_, rfl, rfl, rfl, by decide⟩
  intro status ct body text
  show (if 200 ≤ status ∧ status < 300 then
          if contentTypeIsHtml ct = true then some body else none
        else none) = some text ↔ _
  split_ifs with h1 h2
  · simp only [Option.some.injEq]
    constructor
    · intro h
      exact ⟨h1.1, h1.2, h2, h.symm⟩
    · intro h
      exact h.2.2.2.symm
  · constructor
    · intro h
      exact h.elim
    · intro h
      exact absurd h.2.2.1 h2
  · constructor
    · intro h
      exact h.elim
    · intro h
      exact absurd ⟨h.1, h.2.1⟩ h1

/-! ## C10 -/

/-- C10 (confirmed): the GNews pipeline skips every candidate lacking a
truthy title, even when the natural key (url, which is also the content
link) is present; such a candidate produces no output record wherever it
occurs in the batch. -/
theorem claim_C10_missing_title_skipped (o : SumOracle) (c : GCand)
    (hurl : truthyO c.url = true) (htitle : truthyO c.title = false) :
    processGnewsCandidate o c = none ∧
    ∀ arts : List GCand,
      analyzeGnewsArticles o (c :: arts) = analyzeGnewsArticles o arts := by
  have hnone : processGnewsCandidate o c = none := by
    rw [processGnewsCandidate, if_neg]
    simp [hurl, htitle]
  exact ⟨hnone, fun arts => by
    simp [analyzeGnewsArticles, List.filterMap_cons, hnone]⟩

/-- Witness for C10 at a concrete candidate with url but no title. -/
theorem claim_C10_missing_title_skipped_witness :
    processGnewsCandidate oracleAllGood gCandNoTitle = none ∧
    ∀ arts : List GCand,
      analyzeGnewsArticles oracleAllGood (gCandNoTitle :: arts) =
        analyzeGnewsArticles oracleAllGood arts :=
  claim_C10_missing_title_skipped oracleAllGood gCandNoTitle (by decide) (by decide)

/-! ## C2 -/

/-- C2 (confirmed): for a batch of well-formed records with pairwise-distinct
natural keys none of which exists in storage, the first persist call yields
added = N and skipped = 0 and the identical second call yields added = 0 and
skipped = N.  Proved for the GNews persist (which returns the pair) and for
the NewsData persist (whose Python function returns None; its counts are the
internal counter values the embedding exposes). -/
theorem claim_C2_persist_idempotent (gv : GArt → VRes) (nv : NArt → NVRes)
    (gst nst : List String) (gb : List GArt) (nb : List NArt)
    (hg : ∀ a ∈ gb, gArtGood gv a = true)
    (hgn : (gnewsPotentialUrls gb).Nodup)
    (hgs : ∀ u ∈ gnewsPotentialUrls gb, gst.contains u = false)
    (hn : ∀ a ∈ nb, nArtGood nv a = true)
    (hnn : (newsPotentialIds nb).Nodup)
    (hns : ∀ i ∈ newsPotentialIds nb, nst.contains i = false) :
    ∃ r1 r2 q1 q2,
      save_processed_gnews_articles ⟨false, gv, honestCommit⟩ gst gb = .ok r1 ∧
      r1.added = gb.length ∧ r1.skipped = 0 ∧
      save_processed_gnews_articles ⟨false, gv, honestCommit⟩ r1.state gb = .ok r2 ∧
      r2.added = 0 ∧ r2.skipped = gb.length ∧
      save_processed_articles ⟨false, nv, honestCommit⟩ nst nb = .ok q1 ∧
      q1.added = nb.length ∧ q1.skipped = 0 ∧
      save_processed_articles ⟨false, nv, honestCommit⟩ q1.state nb = .ok q2 ∧
      q2.added = 0 ∧ q2.skipped = nb.length := by
  obtain ⟨r1, hr1, hr1a, hr1s, hr1st⟩ := save_gnews_fresh gv gst gb hg hgn hgs
  have hall2 : ∀ u ∈ gnewsPotentialUrls gb, (r1.state).contains u = true := by
    intro u hu
    rw [hr1st]
    simpa using Or.inr hu
  have hr2 := save_gnews_rerun gv r1.state gb hg hall2
  obtain ⟨q1, hq1, hq1a, hq1s, hq1st⟩ := save_news_fresh nv nst nb hn hnn hns
  have hall2n : ∀ i ∈ newsPotentialIds nb, (q1.state).contains i = true := by
    intro i hi
    rw [hq1st]
    simpa using Or.inr hi
  have hq2 := save_news_rerun nv q1.state nb hn hall2n
  exact ⟨r1, _, q1, _, hr1, hr1a, hr1s, hr2, rfl, rfl, hq1, hq1a, hq1s, hq2,
    rfl, rfl⟩

/-- Witness for C2: the two-record fixture batches against empty storage. -/
theorem claim_C2_persist_idempotent_witness :
    ∃ r1 r2 q1 q2,
      save_processed_gnews_articles ⟨false, gValidateOk, honestCommit⟩ []
        gBatch2 = .ok r1 ∧
      r1.added = gBatch2.length ∧ r1.skipped = 0 ∧
      save_processed_gnews_articles ⟨false, gValidateOk, honestCommit⟩
        r1.state gBatch2 = .ok r2 ∧
      r2.added = 0 ∧ r2.skipped = gBatch2.length ∧
      save_processed_articles ⟨false, nValidateOk, honestCommit⟩ [] nBatch2 =
        .ok q1 ∧
      q1.added = nBatch2.length ∧ q1.skipped = 0 ∧
      save_processed_articles ⟨false, nValidateOk, honestCommit⟩ q1.state
        nBatch2 = .ok q2 ∧
      q2.added = 0 ∧ q2.skipped = nBatch2.length :=
  claim_C2_persist_idempotent gValidateOk nValidateOk [] [] gBatch2 nBatch2
    (by decide) (by decide) (by decide) (by decide) (by decide) (by decide)

/-! ## C3 -/

/-- C3 counterexample: the GNews persist on a five-record batch whose commit
hits the unique constraint does roll back, skip everything and zero the added
count — but logs the event at error severity and emits no warning-severity
event at all, contradicting the claim that the event is logged at warning
rather than error severity. -/
theorem claim_C3_counterexample :
    save_processed_gnews_articles
        ⟨false, gValidateOk, fun _ _ => .uniqueViolation⟩ [] gBatch5 =
      .ok gRes5 ∧
    gRes5.added = 0 ∧ gRes5.skipped = 5 ∧ gRes5.state = [] ∧
    gRes5.rolledBack = true ∧
    LogEvent.mk .error "commit-integrity" ∈ gRes5.logs ∧
    ∀ e ∈ gRes5.logs, e.level ≠ .warning := by
  refine ⟨rfl, rfl, rfl, rfl, rfl, by decide, by decide⟩

/-- C3 amended: on a uniqueness-violation commit failure both persist
operations roll back the entire transaction (state unchanged) and leave the
session usable (rollback performed); the GNews persist counts every pending
record as skipped with added = 0 but logs the event at error rather than
warning severity, while the NewsData persist logs at warning severity but
keeps its internal counters at their pre-commit values (added stays at the
batch size and nothing more is counted skipped). -/
theorem claim_C3_unique_violation_rollback (gv : GArt → VRes) (nv : NArt → NVRes)
    (gcm ncm : List String → List String → CommitOutcome)
    (gst nst : List String) (gb : List GArt) (nb : List NArt)
    (hg : ∀ a ∈ gb, gArtGood gv a = true)
    (hgs : ∀ u ∈ gnewsPotentialUrls gb, gst.contains u = false)
    (hgne : gb ≠ [])
    (hgcm : gcm (gnewsPotentialUrls gb) gst = .uniqueViolation)
    (hn : ∀ a ∈ nb, nArtGood nv a = true)
    (hns : ∀ i ∈ newsPotentialIds nb, nst.contains i = false)
    (hnne : nb ≠ [])
    (hncm : ncm (newsPotentialIds nb) nst = .uniqueViolation) :
    ∃ r, save_processed_gnews_articles ⟨false, gv, gcm⟩ gst gb = .ok r ∧
      r.state = gst ∧ r.added = 0 ∧ r.skipped = gb.length ∧
      r.rolledBack = true ∧
      LogEvent.mk .error "commit-integrity" ∈ r.logs ∧
      (∀ e ∈ r.logs, e.level ≠ .warning) ∧
      save_processed_articles ⟨false, nv, ncm⟩ nst nb =
        .ok { added := nb.length, skipped := 0, state := nst,
              logs := List.replicate nb.length ⟨.debug, "prepared"⟩ ++
                [⟨.warning, "commit-unique-race"⟩, ⟨.info, "rolled-back"⟩],
              rolledBack := true } := by
  obtain ⟨r, hr, ha, hs, hst, hrb, hmem, hwarn⟩ :=
    save_gnews_commit_violation gv gcm gst gb hg hgs hgne hgcm
  exact ⟨r, hr, hst, ha, hs, hrb, hmem, hwarn,
    save_news_commit_violation nv ncm nst nb hn hns hnne hncm⟩

/-- Witness for C3 at the five-record fixture batches with an
always-conflicting commit. -/
theorem claim_C3_unique_violation_rollback_witness :
    ∃ r, save_processed_gnews_articles
        ⟨false, gValidateOk, fun _ _ => .uniqueViolation⟩ [] gBatch5 = .ok r ∧
      r.state = [] ∧ r.added = 0 ∧ r.skipped = gBatch5.length ∧
      r.rolledBack = true ∧
      LogEvent.mk .error "commit-integrity" ∈ r.logs ∧
      (∀ e ∈ r.logs, e.level ≠ .warning) ∧
      save_processed_articles
          ⟨false, nValidateOk, fun _ _ => .uniqueViolation⟩ [] nBatch5 =
        .ok { added := nBatch5.length, skipped := 0, state := [],
              logs := List.replicate nBatch5.length ⟨.debug, "prepared"⟩ ++
                [⟨.warning, "commit-unique-race"⟩, ⟨.info, "rolled-back"⟩],
              rolledBack := true } :=
  claim_C3_unique_violation_rollback gValidateOk nValidateOk
    (fun _ _ => .uniqueViolation) (fun _ _ => .uniqueViolation) [] []
    gBatch5 nBatch5 (by decide) (by decide) (by decide) rfl
    (by decide) (by decide) (by decide) rfl

/-! ## C4 -/

/-- C4 counterexample: the NewsData persist has an unguarded pre-check query;
when that query fails on an ordinary one-record batch, the exception
propagates to the caller instead of resolving to a count. -/
theorem claim_C4_counterexample :
    save_processed_articles ⟨true, nValidateOk, honestCommit⟩ []
      [⟨some "a1", 1⟩] = .error "DBError: pre-check query failed" := rfl

/-- C4 amended: the GNews persist always returns a final pair and never
raises — including when the pre-check query fails, in which case it proceeds
exactly as if no keys existed (second conjunct) — provided every record's
title entry is missing or a string; a record with an unusable url whose title
entry is a stored None makes it raise TypeError from the error handler's
title slice (third conjunct), and the NewsData persist propagates pre-check
query failures to its caller (see the counterexample). -/
theorem claim_C4_gnews_never_raises (cfg : GCfg) (st : List String)
    (batch : List GArt)
    (hsafe : ∀ a ∈ batch, a.title.sliceable = true) :
    (save_processed_gnews_articles cfg st batch).isOk = true ∧
    save_processed_gnews_articles ⟨true, cfg.validate, cfg.commit⟩ st batch =
      saveGnewsCore cfg.validate cfg.commit [] st batch ∧
    save_processed_gnews_articles cfg st [⟨.fnone, .fnone, 0⟩] =
      .error "TypeError: slice of None title" := by
  refine ⟨?_, rfl, rfl⟩
  obtain ⟨x, hx⟩ := gnewsLoop_ok_of_sliceable cfg.validate
    (gnewsExisting cfg.precheckFails st batch) batch hsafe
  exact saveGnewsCore_ok_of_loop_ok cfg.validate cfg.commit _ st batch x hx

/-- Witness for C4 at a concrete configuration whose pre-check fails. -/
theorem claim_C4_gnews_never_raises_witness :
    (save_processed_gnews_articles ⟨true, gValidateOk, honestCommit⟩ []
        gBatch2).isOk = true ∧
    save_processed_gnews_articles ⟨true, gValidateOk, honestCommit⟩ [] gBatch2 =
      saveGnewsCore gValidateOk honestCommit [] [] gBatch2 ∧
    save_processed_gnews_articles ⟨true, gValidateOk, honestCommit⟩ []
      [⟨.fnone, .fnone, 0⟩] = .error "TypeError: slice of None title" :=
  claim_C4_gnews_never_raises ⟨true, gValidateOk, honestCommit⟩ [] gBatch2
    (by decide)

end Newsum
